import Mathlib

/-!
Verification of the fathom frontend feed-state logic (frontend/script.js,
frontend/js/state.js, frontend/js/configManager.js, frontend/js/chatHandler.js).

The JavaScript modules are shallowly embedded as pure Lean functions over an
explicit `AppState` record.  JS numbers that the code produces with `parseInt`
are modelled as `Option Int` (`none` is `NaN`); ISO timestamp strings, which
the code only ever compares through `new Date(...)`, are modelled as `Int`
instants; nullable strings are `Option String`.  DOM rendering of the results
container is modelled as a `List Rendered`.  Asynchronous backend calls are
modelled by passing the call outcome (`Except`) as an explicit argument to the
handler that awaits it.
-/

namespace Fathom

/-- A tag filter entry as stored in `state.activeTagFilterIds`:
an object `{ id, name }`. -/
structure Tag where
  id : Int
  name : String
deriving DecidableEq, Repr

/-- One chat transcript entry `{ role, content }`; `role` is the literal
JS string, `"user"` or `"ai"`. -/
structure ChatMsg where
  role : String
  content : String
deriving DecidableEq, Repr

/-- An article as far as the orchestrator inspects it: only `created_at`
(possibly absent) is ever read, by the watermark update in
`fetchAndDisplaySummaries`. -/
structure Article where
  created_at : Option Int
deriving DecidableEq, Repr

/-- One entry of the results container DOM node (`#results-container`):
either a rendered article card, an appended/replacing inline error
paragraph, or the no-results message. -/
inductive Rendered where
  | article (a : Article)
  | errorMsg (msg : String)
  | noResults
deriving DecidableEq, Repr

/-- The mutable module state of `frontend/js/state.js` (the fields the
verified claims touch), with the initial values from the source.  The
default prompt texts are abbreviated: only their identity as strings is
ever used by the embedded logic (equality comparisons and fallbacks). -/
structure AppState where
  articlesPerPage : Int := 6
  minimumWordCount : Int := 100
  currentPage : Int := 1
  totalPages : Int := 1
  totalArticlesAvailable : Int := 0
  isLoadingMoreArticles : Bool := false
  currentArticleForChat : Option Int := none
  currentChatHistory : List ChatMsg := []
  lastKnownLatestArticleTimestamp : Option Int := none
  defaultSummaryPrompt : String := "Task:Generate a concise, narrative summary of the following article. {text}"
  defaultChatPrompt : String := "Persona: AI analyst. Article Text: {article_text} Question: {question}"
  defaultTagGenerationPrompt : String := "Generate a list of 3-5 relevant tags. Article: {text} Tags:"
  currentSummaryPrompt : String := "Task:Generate a concise, narrative summary of the following article. {text}"
  currentChatPrompt : String := "Persona: AI analyst. Article Text: {article_text} Question: {question}"
  currentTagGenerationPrompt : String := "Generate a list of 3-5 relevant tags. Article: {text} Tags:"
  globalRssFetchInterval : Int := 60
  activeFeedFilterIds : List Int := []
  activeTagFilterIds : List Tag := []
  currentKeywordSearch : Option String := none
  results : List Rendered := []
deriving DecidableEq, Repr

/-- The state right after module load (`state.js` initializers). -/
def initState : AppState := {}

/-- JS truthiness of a nullable string (`null` and `""` are falsy). -/
def jsTruthyStr : Option String → Bool
  | none => false
  | some s => s != ""

/-- Models the JS expression `v || null` on a nullable string. -/
def jsOrNullStr (v : Option String) : Option String :=
  if jsTruthyStr v then v else none

/-- Models the JS expression `v || d` where `v` is a possibly-absent,
possibly-empty string and `d` the fallback. -/
def jsOrStr (v : Option String) (d : String) : String :=
  match v with
  | none => d
  | some s => if s == "" then d else s

/-- Models JS `s.trim()`: drop leading and trailing whitespace.  (Lean
core's `String.trim` has the same behaviour but is defined by
well-founded recursion on byte positions, which the kernel cannot
evaluate; this character-list version is kernel-computable.) -/
def jsTrim (s : String) : String :=
  ⟨((s.data.dropWhile Char.isWhitespace).reverse.dropWhile Char.isWhitespace).reverse⟩

/-- Whether the character list starts with the given pattern. -/
def charsStartWith : List Char → List Char → Bool
  | _, [] => true
  | [], _ :: _ => false
  | a :: as, b :: bs => a == b && charsStartWith as bs

/-- Whether the pattern occurs somewhere in the character list. -/
def charsContain : List Char → List Char → Bool
  | [], pat => pat.isEmpty
  | a :: rest, pat => charsStartWith (a :: rest) pat || charsContain rest pat

/-- Models JS `s.includes(sub)` (substring containment). -/
def jsIncludes (s sub : String) : Bool :=
  charsContain s.data sub.data

/-- The literal placeholder that `saveAiPrompts` requires in the summary
and tag-generation prompts. -/
def placeholderText : String := "{text}"

/-! ### State-store setters (`frontend/js/state.js`)

Setter arguments that the source passes through `parseInt` are modelled
as the `Option Int` value produced by the parse (`none` = `NaN`). -/

/-- `state.setArticlesPerPage`: accepts parsed values `> 0`. -/
def setArticlesPerPage (s : AppState) (count : Option Int) : AppState :=
  match count with
  | some n => if 0 < n then { s with articlesPerPage := n } else s
  | none => s

/-- `state.setMinimumWordCount`: accepts parsed values `>= 0`. -/
def setMinimumWordCount (s : AppState) (count : Option Int) : AppState :=
  match count with
  | some n => if 0 ≤ n then { s with minimumWordCount := n } else s
  | none => s

/-- `state.setCurrentPage`: accepts parsed values `> 0`. -/
def setCurrentPage (s : AppState) (page : Option Int) : AppState :=
  match page with
  | some n => if 0 < n then { s with currentPage := n } else s
  | none => s

/-- `state.setTotalPages`: accepts parsed values `>= 0`. -/
def setTotalPages (s : AppState) (pages : Option Int) : AppState :=
  match pages with
  | some n => if 0 ≤ n then { s with totalPages := n } else s
  | none => s

/-- `state.setTotalArticlesAvailable`: accepts parsed values `>= 0`. -/
def setTotalArticlesAvailable (s : AppState) (count : Option Int) : AppState :=
  match count with
  | some n => if 0 ≤ n then { s with totalArticlesAvailable := n } else s
  | none => s

/-- `state.setIsLoadingMoreArticles` (`!!isLoading`). -/
def setIsLoadingMoreArticles (s : AppState) (isLoading : Bool) : AppState :=
  { s with isLoadingMoreArticles := isLoading }

/-- `state.setCurrentArticleForChat`. -/
def setCurrentArticleForChat (s : AppState) (article : Option Int) : AppState :=
  { s with currentArticleForChat := article }

/-- `state.setCurrentChatHistory` (arrays pass through unchanged). -/
def setCurrentChatHistory (s : AppState) (history : List ChatMsg) : AppState :=
  { s with currentChatHistory := history }

/-- `state.setCurrentPrompts`: each empty argument falls back to the
corresponding default prompt. -/
def setCurrentPrompts (s : AppState) (summary chat tag : String) : AppState :=
  { s with
    currentSummaryPrompt := if summary == "" then s.defaultSummaryPrompt else summary
    currentChatPrompt := if chat == "" then s.defaultChatPrompt else chat
    currentTagGenerationPrompt := if tag == "" then s.defaultTagGenerationPrompt else tag }

/-- `state.setGlobalRssFetchInterval`: accepts parsed values `>= 5`. -/
def setGlobalRssFetchInterval (s : AppState) (interval : Option Int) : AppState :=
  match interval with
  | some n => if 5 ≤ n then { s with globalRssFetchInterval := n } else s
  | none => s

/-- `state.setActiveFeedFilterIds` (the source re-parses the ids; callers
pass integer arrays, so the parse is the identity here). -/
def setActiveFeedFilterIds (s : AppState) (ids : List Int) : AppState :=
  { s with activeFeedFilterIds := ids }

/-- `state.setActiveTagFilterIds` (the shape filter accepts every
well-typed `Tag`). -/
def setActiveTagFilterIds (s : AppState) (tags : List Tag) : AppState :=
  { s with activeTagFilterIds := tags }

/-- `state.addActiveTagFilter`: push unless a tag with the same id is
already present. -/
def addActiveTagFilter (s : AppState) (t : Tag) : AppState :=
  if s.activeTagFilterIds.any (fun x => x.id == t.id) then s
  else { s with activeTagFilterIds := s.activeTagFilterIds ++ [t] }

/-- `state.removeActiveTagFilter`: drop every tag with the parsed id. -/
def removeActiveTagFilter (s : AppState) (tagId : Option Int) : AppState :=
  match tagId with
  | some n => { s with activeTagFilterIds := s.activeTagFilterIds.filter (fun t => t.id != n) }
  | none => s

/-- `state.setCurrentKeywordSearch`: strings are trimmed, non-strings
become `null`. -/
def setCurrentKeywordSearch (s : AppState) (keyword : Option String) : AppState :=
  { s with currentKeywordSearch := keyword.map jsTrim }

/-- `state.setLastKnownLatestArticleTimestamp`: a (valid) timestamp or
`null` is stored as given. -/
def setLastKnownLatestArticleTimestamp (s : AppState) (t : Option Int) : AppState :=
  { s with lastKnownLatestArticleTimestamp := t }

/-! ### Backend round-trip data (`frontend/js/apiService.js` responses) -/

/-- The response body of `POST /api/articles/summaries`. -/
structure FetchData where
  processed_articles_on_page : List Article
  total_articles_available : Int
  total_pages : Int
deriving DecidableEq, Repr

/-- The request payload that `fetchAndDisplaySummaries` builds for
`apiService.fetchNewsSummaries`. -/
structure SummariesPayload where
  page : Int
  page_size : Int
  feed_source_ids : Option (List Int)
  tag_ids : Option (List Int)
  keyword : Option String
  summary_prompt : Option String
  tag_generation_prompt : Option String
deriving DecidableEq, Repr

/-- The response body of `GET /api/articles/status/new-articles`. -/
structure PollResponse where
  new_articles_available : Bool
  article_count : Int
  latest_article_timestamp : Option Int
deriving DecidableEq, Repr

/-- The reduce over `data.processed_articles_on_page` computing the newest
`created_at` (articles without `created_at` are skipped). -/
def newestInBatch (l : List Article) : Option Int :=
  l.foldl
    (fun latest a =>
      match a.created_at with
      | none => latest
      | some d =>
        match latest with
        | none => some d
        | some m => if m < d then some d else some m)
    none

/-- The guarded watermark assignment shared by `fetchAndDisplaySummaries`
and `pollForNewArticles`: update only when the current watermark is absent
or the observed instant is strictly later. -/
def wmUpd (w : Option Int) (t : Int) : Option Int :=
  match w with
  | none => some t
  | some c => if c < t then some t else some c

/-- `wmUpd` lifted to a possibly-absent observed timestamp: the JS code
guards the whole update with the truthiness of the observed value, so an
absent observation leaves the watermark alone. -/
def wmUpdOpt (w : Option Int) (t : Option Int) : Option Int :=
  match t with
  | some v => wmUpd w v
  | none => w

/-! ### Orchestrator (`frontend/script.js`) -/

/-- `fetchAndDisplaySummaries(forceBackendRssRefresh, page, keyword,
isPollRefresh)` from `frontend/script.js`, as a state transformer.  The
awaited `apiService.fetchNewsSummaries` round trip is supplied as
`outcome`; the function returns the new state together with the request
payload it sent.  (`forceBackendRssRefresh` is never read by the body and
is omitted.) -/
def fetchAndDisplaySummaries (s0 : AppState) (page : Int) (keyword : Option String)
    (isPollRefresh : Bool) (outcome : Except String FetchData) :
    AppState × SummariesPayload :=
  let s1 := if page == 1 then setCurrentPage s0 (some 1) else s0
  let s2 := setIsLoadingMoreArticles s1 true
  let payload : SummariesPayload :=
    { page := s2.currentPage
      page_size := s2.articlesPerPage
      feed_source_ids :=
        if s2.activeFeedFilterIds.length > 0 then some s2.activeFeedFilterIds else none
      tag_ids :=
        if s2.activeTagFilterIds.length > 0 then some (s2.activeTagFilterIds.map Tag.id) else none
      keyword := jsOrNullStr keyword
      summary_prompt :=
        if s2.currentSummaryPrompt != s2.defaultSummaryPrompt then some s2.currentSummaryPrompt
        else none
      tag_generation_prompt :=
        if s2.currentTagGenerationPrompt != s2.defaultTagGenerationPrompt then
          some s2.currentTagGenerationPrompt
        else none }
  match outcome with
  | Except.ok data =>
    let s3 := if page == 1 then setTotalArticlesAvailable s2 (some data.total_articles_available) else s2
    let s4 := setTotalPages s3 (some data.total_pages)
    let s5 :=
      { s4 with
        results :=
          if page == 1 then data.processed_articles_on_page.map Rendered.article
          else s4.results ++ data.processed_articles_on_page.map Rendered.article }
    let s6 :=
      if page == 1 && !data.processed_articles_on_page.isEmpty then
        { s5 with
          lastKnownLatestArticleTimestamp :=
            wmUpdOpt s5.lastKnownLatestArticleTimestamp
              (newestInBatch data.processed_articles_on_page) }
      else s5
    let s7 :=
      if page == 1 && data.processed_articles_on_page.isEmpty
          && data.total_articles_available == 0 then
        { s6 with results := [Rendered.noResults] }
      else s6
    (setIsLoadingMoreArticles s7 false, payload)
  | Except.error msg =>
    let s3 :=
      if page == 1 && !isPollRefresh then { s2 with results := [Rendered.errorMsg msg] }
      else if 1 < page then { s2 with results := s2.results ++ [Rendered.errorMsg msg] }
      else s2
    let s4 := setTotalPages s3 (some s3.currentPage)
    (setIsLoadingMoreArticles s4 false, payload)

/-- `pollForNewArticles` from `frontend/script.js`.  `resp` is the outcome
of `apiService.checkNewArticles` (`Except.error` = thrown, swallowed by the
catch); `fetchOutcome` is the summaries round trip used when a refresh is
triggered.  Returns the new state and the summaries request, if one was
issued. -/
def pollForNewArticles (s0 : AppState) (resp : Except Unit PollResponse)
    (fetchOutcome : Except String FetchData) : AppState × Option SummariesPayload :=
  match resp with
  | Except.error _ => (s0, none)
  | Except.ok pollData =>
    let step1 : AppState × Option SummariesPayload :=
      if pollData.new_articles_available then
        let s1 := setCurrentKeywordSearch s0 none
        let r := fetchAndDisplaySummaries s1 1 none true fetchOutcome
        (r.1, some r.2)
      else (s0, none)
    let s2 :=
      { step1.1 with
        lastKnownLatestArticleTimestamp :=
          wmUpdOpt step1.1.lastKnownLatestArticleTimestamp
            pollData.latest_article_timestamp }
    (s2, step1.2)

/-- The window `scroll` event listener from `setupGlobalEventListeners`:
fires a next-page fetch only when near the bottom, not already loading,
and `currentPage < totalPages`. -/
def scrollListener (s0 : AppState) (nearBottom : Bool)
    (outcome : Except String FetchData) : AppState × Option SummariesPayload :=
  if nearBottom && !s0.isLoadingMoreArticles && decide (s0.currentPage < s0.totalPages) then
    let s1 := setCurrentPage s0 (some (s0.currentPage + 1))
    let r := fetchAndDisplaySummaries s1 s1.currentPage s1.currentKeywordSearch false outcome
    (r.1, some r.2)
  else (s0, none)

/-- `handleArticleTagClick(tagId, tagName)`: toggle the tag, clear the
feed and keyword filters, reset to page 1 and fetch. -/
def handleArticleTagClick (s0 : AppState) (tagId : Int) (tagName : String)
    (outcome : Except String FetchData) : AppState × SummariesPayload :=
  let s1 :=
    if s0.activeTagFilterIds.any (fun t => t.id == tagId) then
      removeActiveTagFilter s0 (some tagId)
    else addActiveTagFilter s0 ⟨tagId, tagName⟩
  let s2 := setActiveFeedFilterIds s1 []
  let s3 := setCurrentKeywordSearch s2 none
  let s4 := setCurrentPage s3 (some 1)
  fetchAndDisplaySummaries s4 1 none false outcome

/-- `handleRemoveTagFilter(tagIdToRemove)`: drop the tag, reset to page 1
and fetch with the current keyword. -/
def handleRemoveTagFilter (s0 : AppState) (tagId : Int)
    (outcome : Except String FetchData) : AppState × SummariesPayload :=
  let s1 := removeActiveTagFilter s0 (some tagId)
  let s2 := setCurrentPage s1 (some 1)
  fetchAndDisplaySummaries s2 1 s2.currentKeywordSearch false outcome

/-- `handleFeedFilterClick(feedId)`: toggle the single-feed filter, clear
the tag and keyword filters, reset to page 1 and fetch. -/
def handleFeedFilterClick (s0 : AppState) (feedId : Int)
    (outcome : Except String FetchData) : AppState × SummariesPayload :=
  let s1 :=
    if s0.activeFeedFilterIds.contains feedId then setActiveFeedFilterIds s0 []
    else setActiveFeedFilterIds s0 [feedId]
  let s2 := setActiveTagFilterIds s1 []
  let s3 := setCurrentKeywordSearch s2 none
  let s4 := setCurrentPage s3 (some 1)
  fetchAndDisplaySummaries s4 1 none false outcome

/-- `handleAllFeedsClick()`: a no-op when nothing is filtered; otherwise
clears only the feed filter, resets to page 1 and fetches with the current
keyword. -/
def handleAllFeedsClick (s0 : AppState)
    (outcome : Except String FetchData) : AppState × Option SummariesPayload :=
  if s0.activeFeedFilterIds.isEmpty && s0.activeTagFilterIds.isEmpty
      && !jsTruthyStr s0.currentKeywordSearch then
    (s0, none)
  else
    let s1 := setActiveFeedFilterIds s0 []
    let s2 := setCurrentPage s1 (some 1)
    let r := fetchAndDisplaySummaries s2 1 s2.currentKeywordSearch false outcome
    (r.1, some r.2)

/-- The `keywordSearchBtn` click listener: store the trimmed search term
(empty becomes `null`), clear the feed and tag filters, reset to page 1
and fetch. -/
def keywordSearchClick (s0 : AppState) (input : String)
    (outcome : Except String FetchData) : AppState × SummariesPayload :=
  let searchTerm := jsTrim input
  let s1 := setCurrentKeywordSearch s0 (if searchTerm == "" then none else some searchTerm)
  let s2 := setActiveFeedFilterIds s1 []
  let s3 := setActiveTagFilterIds s2 []
  let s4 := setCurrentPage s3 (some 1)
  fetchAndDisplaySummaries s4 1 s4.currentKeywordSearch false outcome

/-- One user filter-selection operation, naming the handler that runs. -/
inductive FilterOp where
  | tagClick (tagId : Int) (tagName : String)
  | removeTag (tagId : Int)
  | feedClick (feedId : Int)
  | allFeeds
  | keywordSearch (input : String)
deriving DecidableEq, Repr

/-- Dispatch a filter-selection operation to its handler. -/
def applyFilterOp (s : AppState) (op : FilterOp)
    (outcome : Except String FetchData) : AppState × Option SummariesPayload :=
  match op with
  | FilterOp.tagClick i n =>
    let r := handleArticleTagClick s i n outcome
    (r.1, some r.2)
  | FilterOp.removeTag i =>
    let r := handleRemoveTagFilter s i outcome
    (r.1, some r.2)
  | FilterOp.feedClick i =>
    let r := handleFeedFilterClick s i outcome
    (r.1, some r.2)
  | FilterOp.allFeeds => handleAllFeedsClick s outcome
  | FilterOp.keywordSearch q =>
    let r := keywordSearchClick s q outcome
    (r.1, some r.2)

/-! ### Chat handler (`frontend/js/chatHandler.js`) -/

/-- The optimistic assistant placeholder text. -/
def thinkingText : String := "AI is thinking..."

/-- Fallback when the backend answer field is absent or empty. -/
def noAnswerText : String := "No answer received."

/-- The assistant error turn written on a failed chat round trip. -/
def aiErrorText (m : String) : String := "AI Error: " ++ m

/-- The observable intermediate data of one `handleModalArticleChatSubmit`
run: the `chat_history` field sent upstream and the transcript as it stood
right after the optimistic placeholder was pushed (`none` when the submit
aborted before sending). -/
structure ChatStep where
  sentHistory : Option (List ChatMsg)
  optimisticHistory : Option (List ChatMsg)
deriving DecidableEq, Repr

/-- `handleModalArticleChatSubmit()`: push the user turn and a placeholder
assistant turn, send the transcript minus its two last entries
(`slice(0, -2)`), then replace the placeholder (`pop` + `push`) with the
answer or an error turn.  `outcome` is the `postChatMessage` round trip;
its `ok` value is the optional `answer` field of the response. -/
def handleModalArticleChatSubmit (s0 : AppState) (rawInput : String)
    (outcome : Except String (Option String)) : AppState × ChatStep :=
  match s0.currentArticleForChat with
  | none => (s0, ⟨none, none⟩)
  | some _ =>
    let question := jsTrim rawInput
    if question == "" then (s0, ⟨none, none⟩)
    else
      let h1 := s0.currentChatHistory ++ [⟨"user", question⟩]
      let h2 := h1 ++ [⟨"ai", thinkingText⟩]
      let sent := h2.take (h2.length - 2)
      let final :=
        match outcome with
        | Except.ok ans => h2.dropLast ++ [⟨"ai", jsOrStr ans noAnswerText⟩]
        | Except.error m => h2.dropLast ++ [⟨"ai", aiErrorText m⟩]
      (setCurrentChatHistory s0 final, ⟨some sent, some h2⟩)

/-! ### Prompt saving (`frontend/js/configManager.js`) -/

/-- Whether `saveAiPrompts` saved or aborted at client-side validation. -/
inductive SaveOutcome where
  | rejected
  | saved
deriving DecidableEq, Repr

/-- Result of a `saveAiPrompts` call: the new state, whether the save went
through, and whether a network call (`saveConfiguration` → `PUT
/api/config`) was made. -/
structure SaveResult where
  state : AppState
  outcome : SaveOutcome
  networkCall : Bool
deriving DecidableEq, Repr

/-- `configManager.saveAiPrompts(newSummaryPrompt, newChatPrompt,
newTagGenerationPrompt)`: a non-empty summary or tag prompt without the
`placeholderText` marker aborts with an alert before any state change or
network call; otherwise the trimmed prompts (empty falling back to the
defaults) are stored and persisted.  The chat-prompt check only warns and
never aborts. -/
def saveAiPrompts (s0 : AppState)
    (newSummaryPrompt newChatPrompt newTagGenerationPrompt : String) : SaveResult :=
  if newSummaryPrompt != "" && !jsIncludes newSummaryPrompt placeholderText then
    ⟨s0, SaveOutcome.rejected, false⟩
  else if newTagGenerationPrompt != "" && !jsIncludes newTagGenerationPrompt placeholderText then
    ⟨s0, SaveOutcome.rejected, false⟩
  else
    let s1 := setCurrentPrompts s0
      (if jsTrim newSummaryPrompt == "" then s0.defaultSummaryPrompt else jsTrim newSummaryPrompt)
      (if jsTrim newChatPrompt == "" then s0.defaultChatPrompt else jsTrim newChatPrompt)
      (if jsTrim newTagGenerationPrompt == "" then s0.defaultTagGenerationPrompt
       else jsTrim newTagGenerationPrompt)
    ⟨s1, SaveOutcome.saved, true⟩

/-! ### Derived filter predicates and watermark order -/

/-- The feed-source filter is active (non-empty id list). -/
def feedFilterActive (s : AppState) : Bool := !s.activeFeedFilterIds.isEmpty

/-- The tag filter is active (non-empty tag list). -/
def tagFilterActive (s : AppState) : Bool := !s.activeTagFilterIds.isEmpty

/-- The keyword filter is active (truthy keyword). -/
def keywordFilterActive (s : AppState) : Bool := jsTruthyStr s.currentKeywordSearch

/-- At most one of the three filter kinds is active. -/
def atMostOneFilter (s : AppState) : Bool :=
  !(feedFilterActive s && tagFilterActive s)
    && !(feedFilterActive s && keywordFilterActive s)
    && !(tagFilterActive s && keywordFilterActive s)

/-- Some filter kind is active. -/
def anyFilterActive (s : AppState) : Bool :=
  feedFilterActive s || tagFilterActive s || keywordFilterActive s

/-- What each filter-selection handler clears: the tag, feed, and keyword
handlers empty the other two filter kinds; the remove-tag and All-Feeds
handlers promise nothing here. -/
def clearsOthers : FilterOp → AppState → Prop
  | FilterOp.tagClick _ _, s => s.activeFeedFilterIds = [] ∧ s.currentKeywordSearch = none
  | FilterOp.feedClick _, s => s.activeTagFilterIds = [] ∧ s.currentKeywordSearch = none
  | FilterOp.keywordSearch _, s => s.activeFeedFilterIds = [] ∧ s.activeTagFilterIds = []
  | _, _ => True

/-- Non-strict order on watermarks; an absent watermark is the bottom. -/
def wmLeB : Option Int → Option Int → Bool
  | none, _ => true
  | some _, none => false
  | some a, some b => decide (a ≤ b)

/-- Strict order on watermarks; any present value is strictly above an
absent one. -/
def wmLtB : Option Int → Option Int → Bool
  | none, none => false
  | none, some _ => true
  | some _, none => false
  | some a, some b => decide (a < b)

/-- One poll tick as observed by the client: the poll round trip and the
summaries round trip used if a refresh is triggered. -/
def PollTick : Type := Except Unit PollResponse × Except String FetchData

/-- Run a sequence of poll ticks through `pollForNewArticles`. -/
def runPolls (s : AppState) (ticks : List PollTick) : AppState :=
  ticks.foldl (fun st tk => (pollForNewArticles st tk.1 tk.2).1) s

/-! ### State-store setter calls (`frontend/js/state.js`), reified -/

/-- One call to a state-store setter, with its (already `parseInt`-ed)
argument. -/
inductive SetterCall where
  | articlesPerPage (v : Option Int)
  | minimumWordCount (v : Option Int)
  | currentPage (v : Option Int)
  | totalPages (v : Option Int)
  | totalArticlesAvailable (v : Option Int)
  | isLoadingMore (b : Bool)
  | articleForChat (a : Option Int)
  | chatHistory (h : List ChatMsg)
  | currentPrompts (a b c : String)
  | globalRssFetchInterval (v : Option Int)
  | feedFilterIds (ids : List Int)
  | tagFilterIds (tags : List Tag)
  | addTagFilter (t : Tag)
  | removeTagFilter (v : Option Int)
  | keywordSearch (k : Option String)
  | lastKnownTimestamp (t : Option Int)
deriving DecidableEq, Repr

/-- Apply one reified setter call to the state. -/
def applySetter (s : AppState) : SetterCall → AppState
  | SetterCall.articlesPerPage v => setArticlesPerPage s v
  | SetterCall.minimumWordCount v => setMinimumWordCount s v
  | SetterCall.currentPage v => setCurrentPage s v
  | SetterCall.totalPages v => setTotalPages s v
  | SetterCall.totalArticlesAvailable v => setTotalArticlesAvailable s v
  | SetterCall.isLoadingMore b => setIsLoadingMoreArticles s b
  | SetterCall.articleForChat a => setCurrentArticleForChat s a
  | SetterCall.chatHistory h => setCurrentChatHistory s h
  | SetterCall.currentPrompts a b c => setCurrentPrompts s a b c
  | SetterCall.globalRssFetchInterval v => setGlobalRssFetchInterval s v
  | SetterCall.feedFilterIds ids => setActiveFeedFilterIds s ids
  | SetterCall.tagFilterIds tags => setActiveTagFilterIds s tags
  | SetterCall.addTagFilter t => addActiveTagFilter s t
  | SetterCall.removeTagFilter v => removeActiveTagFilter s v
  | SetterCall.keywordSearch k => setCurrentKeywordSearch s k
  | SetterCall.lastKnownTimestamp t => setLastKnownLatestArticleTimestamp s t

/-- The numeric range invariant the state-store setters maintain. -/
def storeInv (s : AppState) : Prop :=
  1 ≤ s.currentPage ∧ 1 ≤ s.articlesPerPage ∧ 0 ≤ s.totalPages
    ∧ 0 ≤ s.totalArticlesAvailable ∧ 0 ≤ s.minimumWordCount
    ∧ 5 ≤ s.globalRssFetchInterval

instance (s : AppState) : Decidable (storeInv s) := by
  unfold storeInv
  infer_instance

/-! ## Helper lemmas -/

theorem setCurrentPage_one (s : AppState) :
    setCurrentPage s (some 1) = { s with currentPage := 1 } := by
  simp [setCurrentPage]

theorem setTotalPages_of_nonneg (s : AppState) {n : Int} (h : 0 ≤ n) :
    setTotalPages s (some n) = { s with totalPages := n } := by
  simp [setTotalPages, h]

theorem setTotalPages_feed (s : AppState) (v : Option Int) :
    (setTotalPages s v).activeFeedFilterIds = s.activeFeedFilterIds := by
  cases v with
  | none => rfl
  | some n => by_cases h : (0:Int) ≤ n <;> simp [setTotalPages, h]

theorem setTotalPages_tag (s : AppState) (v : Option Int) :
    (setTotalPages s v).activeTagFilterIds = s.activeTagFilterIds := by
  cases v with
  | none => rfl
  | some n => by_cases h : (0:Int) ≤ n <;> simp [setTotalPages, h]

theorem setTotalPages_kw (s : AppState) (v : Option Int) :
    (setTotalPages s v).currentKeywordSearch = s.currentKeywordSearch := by
  cases v with
  | none => rfl
  | some n => by_cases h : (0:Int) ≤ n <;> simp [setTotalPages, h]

theorem setTotalPages_wm (s : AppState) (v : Option Int) :
    (setTotalPages s v).lastKnownLatestArticleTimestamp
      = s.lastKnownLatestArticleTimestamp := by
  cases v with
  | none => rfl
  | some n => by_cases h : (0:Int) ≤ n <;> simp [setTotalPages, h]

theorem setTotalPages_page (s : AppState) (v : Option Int) :
    (setTotalPages s v).currentPage = s.currentPage := by
  cases v with
  | none => rfl
  | some n => by_cases h : (0:Int) ≤ n <;> simp [setTotalPages, h]

theorem setTotalPages_results (s : AppState) (v : Option Int) :
    (setTotalPages s v).results = s.results := by
  cases v with
  | none => rfl
  | some n => by_cases h : (0:Int) ≤ n <;> simp [setTotalPages, h]

theorem setTAA_feed (s : AppState) (v : Option Int) :
    (setTotalArticlesAvailable s v).activeFeedFilterIds = s.activeFeedFilterIds := by
  cases v with
  | none => rfl
  | some n => by_cases h : (0:Int) ≤ n <;> simp [setTotalArticlesAvailable, h]

theorem setTAA_tag (s : AppState) (v : Option Int) :
    (setTotalArticlesAvailable s v).activeTagFilterIds = s.activeTagFilterIds := by
  cases v with
  | none => rfl
  | some n => by_cases h : (0:Int) ≤ n <;> simp [setTotalArticlesAvailable, h]

theorem setTAA_kw (s : AppState) (v : Option Int) :
    (setTotalArticlesAvailable s v).currentKeywordSearch = s.currentKeywordSearch := by
  cases v with
  | none => rfl
  | some n => by_cases h : (0:Int) ≤ n <;> simp [setTotalArticlesAvailable, h]

theorem setTAA_wm (s : AppState) (v : Option Int) :
    (setTotalArticlesAvailable s v).lastKnownLatestArticleTimestamp
      = s.lastKnownLatestArticleTimestamp := by
  cases v with
  | none => rfl
  | some n => by_cases h : (0:Int) ≤ n <;> simp [setTotalArticlesAvailable, h]

theorem setTAA_page (s : AppState) (v : Option Int) :
    (setTotalArticlesAvailable s v).currentPage = s.currentPage := by
  cases v with
  | none => rfl
  | some n => by_cases h : (0:Int) ≤ n <;> simp [setTotalArticlesAvailable, h]

theorem setTAA_results (s : AppState) (v : Option Int) :
    (setTotalArticlesAvailable s v).results = s.results := by
  cases v with
  | none => rfl
  | some n => by_cases h : (0:Int) ≤ n <;> simp [setTotalArticlesAvailable, h]

theorem setTotalPages_val (s : AppState) (n : Int) :
    (setTotalPages s (some n)).totalPages = if 0 ≤ n then n else s.totalPages := by
  by_cases h : (0:Int) ≤ n <;> simp [setTotalPages, h]

theorem wmLeB_refl (w : Option Int) : wmLeB w w = true := by
  cases w <;> simp [wmLeB]

theorem wmLeB_trans {a b c : Option Int} (h1 : wmLeB a b = true)
    (h2 : wmLeB b c = true) : wmLeB a c = true := by
  cases a <;> cases b <;> cases c <;> simp_all [wmLeB] <;> omega

theorem wmLeB_of_ltB {a b : Option Int} (h : wmLtB a b = true) : wmLeB a b = true := by
  cases a <;> cases b <;> simp_all [wmLtB, wmLeB] <;> omega

theorem wmLtB_le_trans {a b c : Option Int} (h1 : wmLtB a b = true)
    (h2 : wmLeB b c = true) : wmLtB a c = true := by
  cases a <;> cases b <;> cases c <;> simp_all [wmLtB, wmLeB] <;> omega

theorem wmUpd_le (w : Option Int) (t : Int) : wmLeB w (wmUpd w t) = true := by
  cases w with
  | none => simp [wmUpd, wmLeB]
  | some c =>
    by_cases h : c < t <;> simp [wmUpd, wmLeB, h] <;> omega

theorem wmUpd_eq_or_lt (w : Option Int) (t : Int) :
    wmUpd w t = w ∨ wmLtB w (wmUpd w t) = true := by
  cases w with
  | none => right; simp [wmUpd, wmLtB]
  | some c =>
    by_cases h : c < t
    · right; simp [wmUpd, wmLtB, h]
    · left; simp [wmUpd, h]

theorem wmUpdOpt_le (w : Option Int) (t : Option Int) :
    wmLeB w (wmUpdOpt w t) = true := by
  cases t with
  | none => exact wmLeB_refl w
  | some v => exact wmUpd_le w v

theorem wmUpdOpt_eq_or_lt (w : Option Int) (t : Option Int) :
    wmUpdOpt w t = w ∨ wmLtB w (wmUpdOpt w t) = true := by
  cases t with
  | none => left; rfl
  | some v => exact wmUpd_eq_or_lt w v

theorem fetch_feed (s : AppState) (p : Int) (k : Option String) (ip : Bool)
    (o : Except String FetchData) :
    (fetchAndDisplaySummaries s p k ip o).1.activeFeedFilterIds
      = s.activeFeedFilterIds := by
  cases o <;>
    simp [fetchAndDisplaySummaries, apply_ite AppState.activeFeedFilterIds,
      setCurrentPage_one, setIsLoadingMoreArticles, setTotalPages_feed, setTAA_feed]

theorem fetch_tag (s : AppState) (p : Int) (k : Option String) (ip : Bool)
    (o : Except String FetchData) :
    (fetchAndDisplaySummaries s p k ip o).1.activeTagFilterIds
      = s.activeTagFilterIds := by
  cases o <;>
    simp [fetchAndDisplaySummaries, apply_ite AppState.activeTagFilterIds,
      setCurrentPage_one, setIsLoadingMoreArticles, setTotalPages_tag, setTAA_tag]

theorem fetch_kw (s : AppState) (p : Int) (k : Option String) (ip : Bool)
    (o : Except String FetchData) :
    (fetchAndDisplaySummaries s p k ip o).1.currentKeywordSearch
      = s.currentKeywordSearch := by
  cases o <;>
    simp [fetchAndDisplaySummaries, apply_ite AppState.currentKeywordSearch,
      setCurrentPage_one, setIsLoadingMoreArticles, setTotalPages_kw, setTAA_kw]

theorem fetch_page (s : AppState) (p : Int) (k : Option String) (ip : Bool)
    (o : Except String FetchData) :
    (fetchAndDisplaySummaries s p k ip o).1.currentPage
      = if p == 1 then 1 else s.currentPage := by
  cases o <;> by_cases hp : p = 1 <;>
    simp [fetchAndDisplaySummaries, hp, apply_ite AppState.currentPage,
      setCurrentPage_one, setIsLoadingMoreArticles, setTotalPages_page, setTAA_page]

theorem fetch_isLoading (s : AppState) (p : Int) (k : Option String) (ip : Bool)
    (o : Except String FetchData) :
    (fetchAndDisplaySummaries s p k ip o).1.isLoadingMoreArticles = false := by
  cases o <;> simp [fetchAndDisplaySummaries, setIsLoadingMoreArticles]

theorem fetch_wm_eq_or_lt (s : AppState) (p : Int) (k : Option String) (ip : Bool)
    (o : Except String FetchData) :
    (fetchAndDisplaySummaries s p k ip o).1.lastKnownLatestArticleTimestamp
        = s.lastKnownLatestArticleTimestamp
      ∨ wmLtB s.lastKnownLatestArticleTimestamp
          (fetchAndDisplaySummaries s p k ip o).1.lastKnownLatestArticleTimestamp
        = true := by
  cases o with
  | error m =>
    left
    simp [fetchAndDisplaySummaries, apply_ite AppState.lastKnownLatestArticleTimestamp,
      setCurrentPage_one, setIsLoadingMoreArticles, setTotalPages_wm]
  | ok d =>
    have hwm : (fetchAndDisplaySummaries s p k ip (Except.ok d)).1.lastKnownLatestArticleTimestamp
        = if p == 1 && !d.processed_articles_on_page.isEmpty then
            wmUpdOpt s.lastKnownLatestArticleTimestamp
              (newestInBatch d.processed_articles_on_page)
          else s.lastKnownLatestArticleTimestamp := by
      simp [fetchAndDisplaySummaries, apply_ite AppState.lastKnownLatestArticleTimestamp,
        setCurrentPage_one, setIsLoadingMoreArticles, setTotalPages_wm, setTAA_wm]
    rw [hwm]
    split
    · exact wmUpdOpt_eq_or_lt _ _
    · left; rfl

theorem fetch_payload_page_one (s : AppState) (k : Option String) (ip : Bool)
    (o : Except String FetchData) :
    (fetchAndDisplaySummaries s 1 k ip o).2.page = 1 := by
  cases o <;> simp [fetchAndDisplaySummaries, setCurrentPage_one, setIsLoadingMoreArticles]

theorem fetch_payload_keyword (s : AppState) (p : Int) (k : Option String) (ip : Bool)
    (o : Except String FetchData) :
    (fetchAndDisplaySummaries s p k ip o).2.keyword = jsOrNullStr k := by
  cases o <;> simp [fetchAndDisplaySummaries, setCurrentPage_one, setIsLoadingMoreArticles]

theorem wm_le_of_eq_or_lt {a b : Option Int} (h : b = a ∨ wmLtB a b = true) :
    wmLeB a b = true := by
  cases h with
  | inl he => rw [he]; exact wmLeB_refl a
  | inr hl => exact wmLeB_of_ltB hl

theorem wm_eq_or_lt_trans {a b c : Option Int} (h1 : b = a ∨ wmLtB a b = true)
    (h2 : c = b ∨ wmLtB b c = true) : c = a ∨ wmLtB a c = true := by
  cases h1 with
  | inl e1 =>
    rw [e1] at h2
    exact h2
  | inr l1 =>
    cases h2 with
    | inl e2 => right; rw [e2]; exact l1
    | inr l2 => right; exact wmLtB_le_trans l1 (wmLeB_of_ltB l2)

theorem poll_wm_eq_or_lt (s : AppState) (r : Except Unit PollResponse)
    (f : Except String FetchData) :
    (pollForNewArticles s r f).1.lastKnownLatestArticleTimestamp
        = s.lastKnownLatestArticleTimestamp
      ∨ wmLtB s.lastKnownLatestArticleTimestamp
          (pollForNewArticles s r f).1.lastKnownLatestArticleTimestamp = true := by
  cases r with
  | error e => left; rfl
  | ok pd =>
    by_cases hav : pd.new_articles_available
    · have hres : (pollForNewArticles s (Except.ok pd) f).1.lastKnownLatestArticleTimestamp
          = wmUpdOpt
              (fetchAndDisplaySummaries (setCurrentKeywordSearch s none) 1 none true
                f).1.lastKnownLatestArticleTimestamp
              pd.latest_article_timestamp := by
        simp [pollForNewArticles, hav]
      rw [hres]
      have h1 : (fetchAndDisplaySummaries (setCurrentKeywordSearch s none) 1 none true
            f).1.lastKnownLatestArticleTimestamp
            = s.lastKnownLatestArticleTimestamp
          ∨ wmLtB s.lastKnownLatestArticleTimestamp
              (fetchAndDisplaySummaries (setCurrentKeywordSearch s none) 1 none true
                f).1.lastKnownLatestArticleTimestamp = true :=
        fetch_wm_eq_or_lt (setCurrentKeywordSearch s none) 1 none true f
      exact wm_eq_or_lt_trans h1 (wmUpdOpt_eq_or_lt _ _)
    · have hres : (pollForNewArticles s (Except.ok pd) f).1.lastKnownLatestArticleTimestamp
          = wmUpdOpt s.lastKnownLatestArticleTimestamp pd.latest_article_timestamp := by
        simp [pollForNewArticles, hav]
      rw [hres]
      exact wmUpdOpt_eq_or_lt _ _

theorem runPolls_le (ticks : List PollTick) :
    ∀ s : AppState,
      wmLeB s.lastKnownLatestArticleTimestamp
        (runPolls s ticks).lastKnownLatestArticleTimestamp = true := by
  induction ticks with
  | nil => intro s; exact wmLeB_refl _
  | cons t ts ih =>
    intro s
    have hstep : runPolls s (t :: ts) = runPolls (pollForNewArticles s t.1 t.2).1 ts := rfl
    rw [hstep]
    exact wmLeB_trans (wm_le_of_eq_or_lt (poll_wm_eq_or_lt s t.1 t.2))
      (ih (pollForNewArticles s t.1 t.2).1)

/-! ## Claim theorems -/

/-- C3: across any sequence of poll responses processed by
`pollForNewArticles`, the watermark `lastKnownLatestArticleTimestamp` is
monotonically non-decreasing, and a single poll step either leaves the
watermark unchanged or moves it strictly later (it is only updated when
the newly observed timestamp is strictly later than the current value,
where an absent watermark counts as earliest). -/
theorem C3_watermark_monotone :
    (∀ (s : AppState) (ticks : List PollTick),
        wmLeB s.lastKnownLatestArticleTimestamp
          (runPolls s ticks).lastKnownLatestArticleTimestamp = true)
      ∧ (∀ (s : AppState) (r : Except Unit PollResponse) (f : Except String FetchData),
          (pollForNewArticles s r f).1.lastKnownLatestArticleTimestamp
              = s.lastKnownLatestArticleTimestamp
            ∨ wmLtB s.lastKnownLatestArticleTimestamp
                (pollForNewArticles s r f).1.lastKnownLatestArticleTimestamp = true) :=
  ⟨fun s ticks => runPolls_le ticks s, fun s r f => poll_wm_eq_or_lt s r f⟩

/-- C4: a poll response with `new_articles_available = false` whose
`latest_article_timestamp` equals the current watermark triggers no
summaries re-fetch and leaves the whole state — in particular the
watermark — unchanged. -/
theorem C4_poll_noop (s : AppState) (t cnt : Int) (f : Except String FetchData)
    (hw : s.lastKnownLatestArticleTimestamp = some t) :
    pollForNewArticles s (Except.ok ⟨false, cnt, some t⟩) f = (s, none) := by
  simp [pollForNewArticles, wmUpdOpt, wmUpd, hw]
  rw [← hw]

/-- Witness for C4 at a concrete state and response. -/
theorem C4_poll_noop_witness :
    pollForNewArticles { initState with lastKnownLatestArticleTimestamp := some 9 }
        (Except.ok ⟨false, 0, some 9⟩) (Except.error "x")
      = ({ initState with lastKnownLatestArticleTimestamp := some 9 }, none) :=
  C4_poll_noop _ 9 0 _ rfl

/-- C5: the infinite-scroll listener never starts a summaries fetch while
`isLoadingMoreArticles` is true — the call is dropped and the state is
untouched (nothing is queued). -/
theorem C5_scroll_in_flight (s : AppState) (nearBottom : Bool)
    (f : Except String FetchData) (h : s.isLoadingMoreArticles = true) :
    scrollListener s nearBottom f = (s, none) := by
  simp [scrollListener, h]

/-- Witness for C5 at a concrete loading state. -/
theorem C5_scroll_in_flight_witness :
    scrollListener { initState with isLoadingMoreArticles := true } true
        (Except.ok ⟨[], 0, 0⟩)
      = ({ initState with isLoadingMoreArticles := true }, none) :=
  C5_scroll_in_flight _ true _ rfl

/-- Counterexample to C1 as stated: a poll response announcing new
articles does not clear the feed-source filter — starting with feed
filter `[7]`, after the poll the feed filter is still `[7]`, so the
filter state was not forced to \x7bno filter\x7d. -/
theorem C1_counterexample :
    (pollForNewArticles { initState with activeFeedFilterIds := [7] }
          (Except.ok ⟨true, 1, some 5⟩) (Except.ok ⟨[], 0, 0⟩)).1.activeFeedFilterIds
      = [7] := by
  decide

/-- C1 (amended): when a poll response reports `new_articles_available`,
`pollForNewArticles` clears only the keyword filter — the feed-source and
tag filters are preserved — resets the page to 1, issues a page-1
summaries re-fetch (with no keyword), and never moves the watermark
backwards. -/
theorem C1_poll_refresh (s : AppState) (pd : PollResponse) (f : Except String FetchData)
    (hav : pd.new_articles_available = true) :
    (pollForNewArticles s (Except.ok pd) f).1.currentPage = 1
      ∧ (pollForNewArticles s (Except.ok pd) f).1.currentKeywordSearch = none
      ∧ (pollForNewArticles s (Except.ok pd) f).1.activeFeedFilterIds = s.activeFeedFilterIds
      ∧ (pollForNewArticles s (Except.ok pd) f).1.activeTagFilterIds = s.activeTagFilterIds
      ∧ (∃ pay, (pollForNewArticles s (Except.ok pd) f).2 = some pay
          ∧ pay.page = 1 ∧ pay.keyword = none)
      ∧ wmLeB s.lastKnownLatestArticleTimestamp
          (pollForNewArticles s (Except.ok pd) f).1.lastKnownLatestArticleTimestamp
          = true := by
  have hstate : (pollForNewArticles s (Except.ok pd) f).1
      = { (fetchAndDisplaySummaries (setCurrentKeywordSearch s none) 1 none true f).1 with
          lastKnownLatestArticleTimestamp :=
            wmUpdOpt
              (fetchAndDisplaySummaries (setCurrentKeywordSearch s none) 1 none true
                f).1.lastKnownLatestArticleTimestamp
              pd.latest_article_timestamp } := by
    simp [pollForNewArticles, hav]
  have hreq : (pollForNewArticles s (Except.ok pd) f).2
      = some (fetchAndDisplaySummaries (setCurrentKeywordSearch s none) 1 none true f).2 := by
    simp [pollForNewArticles, hav]
  refine ⟨?_, ?_, ?_, ?_, ?_, ?_⟩
  · rw [hstate]
    simp [fetch_page, setCurrentPage_one]
  · rw [hstate]
    simp [fetch_kw, setCurrentKeywordSearch]
  · rw [hstate]
    simp [fetch_feed, setCurrentKeywordSearch]
  · rw [hstate]
    simp [fetch_tag, setCurrentKeywordSearch]
  · exact ⟨_, hreq, fetch_payload_page_one _ _ _ _,
      (fetch_payload_keyword _ _ _ _ _).trans rfl⟩
  · rw [hstate]
    have hle : wmLeB s.lastKnownLatestArticleTimestamp
        (fetchAndDisplaySummaries (setCurrentKeywordSearch s none) 1 none true
          f).1.lastKnownLatestArticleTimestamp = true :=
      wm_le_of_eq_or_lt (fetch_wm_eq_or_lt (setCurrentKeywordSearch s none) 1 none true f)
    exact wmLeB_trans hle (wmUpdOpt_le _ _)

/-- Witness for C1 (amended) at a concrete filtered state and response. -/
theorem C1_poll_refresh_witness :
    (pollForNewArticles { initState with activeFeedFilterIds := [3], currentPage := 4 }
          (Except.ok ⟨true, 2, some 7⟩) (Except.ok ⟨[], 0, 0⟩)).1.currentPage = 1
      ∧ (pollForNewArticles { initState with activeFeedFilterIds := [3], currentPage := 4 }
          (Except.ok ⟨true, 2, some 7⟩) (Except.ok ⟨[], 0, 0⟩)).1.currentKeywordSearch = none
      ∧ (pollForNewArticles { initState with activeFeedFilterIds := [3], currentPage := 4 }
          (Except.ok ⟨true, 2, some 7⟩) (Except.ok ⟨[], 0, 0⟩)).1.activeFeedFilterIds
        = ({ initState with activeFeedFilterIds := [3], currentPage := 4 } : AppState).activeFeedFilterIds
      ∧ (pollForNewArticles { initState with activeFeedFilterIds := [3], currentPage := 4 }
          (Except.ok ⟨true, 2, some 7⟩) (Except.ok ⟨[], 0, 0⟩)).1.activeTagFilterIds
        = ({ initState with activeFeedFilterIds := [3], currentPage := 4 } : AppState).activeTagFilterIds
      ∧ (∃ pay, (pollForNewArticles { initState with activeFeedFilterIds := [3], currentPage := 4 }
            (Except.ok ⟨true, 2, some 7⟩) (Except.ok ⟨[], 0, 0⟩)).2 = some pay
          ∧ pay.page = 1 ∧ pay.keyword = none)
      ∧ wmLeB ({ initState with activeFeedFilterIds := [3], currentPage := 4 } : AppState).lastKnownLatestArticleTimestamp
          (pollForNewArticles { initState with activeFeedFilterIds := [3], currentPage := 4 }
            (Except.ok ⟨true, 2, some 7⟩) (Except.ok ⟨[], 0, 0⟩)).1.lastKnownLatestArticleTimestamp
          = true :=
  C1_poll_refresh { initState with activeFeedFilterIds := [3], currentPage := 4 }
    ⟨true, 2, some 7⟩ (Except.ok ⟨[], 0, 0⟩) rfl

/-- Counterexample to C6 as stated: a failed page-1 fetch that is a
poll-triggered refresh (`isPollRefresh = true`) leaves the results area
untouched — it is not replaced with an inline error message. -/
theorem C6_counterexample :
    (fetchAndDisplaySummaries { initState with results := [Rendered.article ⟨some 10⟩] }
          1 none true (Except.error "boom")).1.results
      = [Rendered.article ⟨some 10⟩] := by
  decide

/-- C6 (amended): on a failed summaries fetch, a page-1 request that is
not a poll refresh replaces the results area with an inline error; a
page-1 poll refresh leaves the results area untouched; a page > 1 request
appends an inline error after the already-rendered entries; and in every
case `totalPages` is clamped to the current page, so the infinite-scroll
listener initiates no further fetch from the resulting state. -/
theorem C6_fetch_failure (s : AppState) (p : Int) (k : Option String) (ip : Bool)
    (msg : String) (hpage : 1 ≤ s.currentPage) :
    (p = 1 → ip = false →
        (fetchAndDisplaySummaries s p k ip (Except.error msg)).1.results
          = [Rendered.errorMsg msg])
      ∧ (p = 1 → ip = true →
        (fetchAndDisplaySummaries s p k ip (Except.error msg)).1.results = s.results)
      ∧ (1 < p →
        (fetchAndDisplaySummaries s p k ip (Except.error msg)).1.results
          = s.results ++ [Rendered.errorMsg msg])
      ∧ (fetchAndDisplaySummaries s p k ip (Except.error msg)).1.totalPages
          = (fetchAndDisplaySummaries s p k ip (Except.error msg)).1.currentPage
      ∧ (∀ (nb : Bool) (f2 : Except String FetchData),
          scrollListener (fetchAndDisplaySummaries s p k ip (Except.error msg)).1 nb f2
            = ((fetchAndDisplaySummaries s p k ip (Except.error msg)).1, none)) := by
  have h4 : (fetchAndDisplaySummaries s p k ip (Except.error msg)).1.totalPages
      = (fetchAndDisplaySummaries s p k ip (Except.error msg)).1.currentPage := by
    by_cases hp : p = 1
    · subst hp
      simp [fetchAndDisplaySummaries, setCurrentPage_one, setIsLoadingMoreArticles,
        apply_ite AppState.currentPage, apply_ite AppState.totalPages,
        setTotalPages_page, setTotalPages_val]
    · have h0 : (0:Int) ≤ s.currentPage := by omega
      simp [fetchAndDisplaySummaries, hp, setIsLoadingMoreArticles,
        apply_ite AppState.currentPage, apply_ite AppState.totalPages,
        setTotalPages_page, setTotalPages_val, h0]
  have h5 : (fetchAndDisplaySummaries s p k ip (Except.error msg)).1.isLoadingMoreArticles
      = false := fetch_isLoading s p k ip (Except.error msg)
  refine ⟨?_, ?_, ?_, h4, ?_⟩
  · intro hp hip
    subst hp; subst hip
    simp [fetchAndDisplaySummaries, setCurrentPage_one, setIsLoadingMoreArticles,
      setTotalPages_results]
  · intro hp hip
    subst hp; subst hip
    simp [fetchAndDisplaySummaries, setCurrentPage_one, setIsLoadingMoreArticles,
      setTotalPages_results]
  · intro hlt
    have hne : p ≠ 1 := by omega
    simp [fetchAndDisplaySummaries, hne, hlt, setIsLoadingMoreArticles,
      setTotalPages_results]
  · intro nb f2
    have hdec : decide ((fetchAndDisplaySummaries s p k ip (Except.error msg)).1.currentPage
        < (fetchAndDisplaySummaries s p k ip (Except.error msg)).1.totalPages) = false := by
      rw [h4]
      simp
    simp [scrollListener, h5, hdec]

/-- Witness for C6 (amended) at a concrete state on page 3. -/
theorem C6_fetch_failure_witness :
    ((3:Int) = 1 → false = false →
        (fetchAndDisplaySummaries
            { initState with currentPage := 3, results := [Rendered.article ⟨some 2⟩] }
            3 none false (Except.error "down")).1.results
          = [Rendered.errorMsg "down"])
      ∧ ((3:Int) = 1 → false = true →
        (fetchAndDisplaySummaries
            { initState with currentPage := 3, results := [Rendered.article ⟨some 2⟩] }
            3 none false (Except.error "down")).1.results
          = ({ initState with
              currentPage := 3
              results := [Rendered.article ⟨some 2⟩] } : AppState).results)
      ∧ ((1:Int) < 3 →
        (fetchAndDisplaySummaries
            { initState with currentPage := 3, results := [Rendered.article ⟨some 2⟩] }
            3 none false (Except.error "down")).1.results
          = ({ initState with
              currentPage := 3
              results := [Rendered.article ⟨some 2⟩] } : AppState).results
              ++ [Rendered.errorMsg "down"])
      ∧ (fetchAndDisplaySummaries
            { initState with currentPage := 3, results := [Rendered.article ⟨some 2⟩] }
            3 none false (Except.error "down")).1.totalPages
          = (fetchAndDisplaySummaries
            { initState with currentPage := 3, results := [Rendered.article ⟨some 2⟩] }
            3 none false (Except.error "down")).1.currentPage
      ∧ (∀ (nb : Bool) (f2 : Except String FetchData),
          scrollListener
              (fetchAndDisplaySummaries
                { initState with currentPage := 3, results := [Rendered.article ⟨some 2⟩] }
                3 none false (Except.error "down")).1 nb f2
            = ((fetchAndDisplaySummaries
                { initState with currentPage := 3, results := [Rendered.article ⟨some 2⟩] }
                3 none false (Except.error "down")).1, none)) :=
  C6_fetch_failure
    { initState with currentPage := 3, results := [Rendered.article ⟨some 2⟩] }
    3 none false "down" (by norm_num)

theorem filterActive_mono {l : List Tag} {p : Tag → Bool}
    (h : (l.filter p).isEmpty = false) : l.isEmpty = false := by
  cases l with
  | nil => simp at h
  | cons a t => rfl

/-- Counterexample to C8 as stated: selecting All Feeds while no filter is
active does not reset the page — from page 3 with no filters, the
All-Feeds click leaves the page at 3. -/
theorem C8_counterexample :
    (applyFilterOp { initState with currentPage := 3, totalPages := 5 } FilterOp.allFeeds
        (Except.ok ⟨[], 0, 0⟩)).1.currentPage = 3 := by
  decide

/-- C8 (amended): every filter-selection operation resets the current
page to 1, except that an All-Feeds click while no filter is active is a
complete no-op (no state change, no fetch), preserving the page. -/
theorem C8_page_reset (s : AppState) (op : FilterOp) (f : Except String FetchData) :
    (applyFilterOp s op f).1.currentPage = 1
      ∨ (op = FilterOp.allFeeds ∧ anyFilterActive s = false
          ∧ applyFilterOp s op f = (s, none)) := by
  cases op with
  | tagClick i n =>
    left
    simp [applyFilterOp, handleArticleTagClick, fetch_page, setCurrentPage_one]
  | removeTag i =>
    left
    simp [applyFilterOp, handleRemoveTagFilter, fetch_page, setCurrentPage_one]
  | feedClick i =>
    left
    simp [applyFilterOp, handleFeedFilterClick, fetch_page, setCurrentPage_one]
  | keywordSearch q =>
    left
    simp [applyFilterOp, keywordSearchClick, fetch_page, setCurrentPage_one]
  | allFeeds =>
    by_cases hno : (s.activeFeedFilterIds.isEmpty && s.activeTagFilterIds.isEmpty
        && !jsTruthyStr s.currentKeywordSearch) = true
    · right
      refine ⟨rfl, ?_, ?_⟩
      · simp_all [anyFilterActive, feedFilterActive, tagFilterActive, keywordFilterActive]
      · simp [applyFilterOp, handleAllFeedsClick, hno]
    · left
      simp [applyFilterOp, handleAllFeedsClick, hno, fetch_page, setCurrentPage_one]

/-- Counterexample to C2 as stated: applying the keyword filter and then
the no-filter handler (All Feeds) does not leave the no-filter kind
active — the keyword filter survives the All-Feeds click. -/
theorem C2_counterexample :
    keywordFilterActive
      ((applyFilterOp
        ((applyFilterOp initState (FilterOp.keywordSearch "ukraine")
          (Except.ok ⟨[], 0, 0⟩)).1)
        FilterOp.allFeeds (Except.ok ⟨[], 0, 0⟩)).1) = true := by
  decide

/-- C2 (amended): from a state with at most one active filter kind, every
filter-selection operation leaves at most one filter kind active, and the
tag, feed, and keyword handlers clear the other two filter kinds
unconditionally; the All-Feeds handler, however, only clears the feed
filter and can leave a tag or keyword filter in place. -/
theorem C2_filter_exclusive (s : AppState) (op : FilterOp) (f : Except String FetchData)
    (h : atMostOneFilter s = true) :
    atMostOneFilter (applyFilterOp s op f).1 = true
      ∧ clearsOthers op (applyFilterOp s op f).1 := by
  cases op with
  | tagClick i n =>
    have hfeed : (applyFilterOp s (FilterOp.tagClick i n) f).1.activeFeedFilterIds = [] := by
      simp [applyFilterOp, handleArticleTagClick, fetch_feed, setActiveFeedFilterIds,
        setCurrentKeywordSearch, setCurrentPage_one]
    have hkw : (applyFilterOp s (FilterOp.tagClick i n) f).1.currentKeywordSearch = none := by
      simp [applyFilterOp, handleArticleTagClick, fetch_kw, setActiveFeedFilterIds,
        setCurrentKeywordSearch, setCurrentPage_one]
    constructor
    · simp [atMostOneFilter, feedFilterActive, tagFilterActive, keywordFilterActive,
        hfeed, hkw, jsTruthyStr]
    · exact ⟨hfeed, hkw⟩
  | removeTag i =>
    have hfeed : (applyFilterOp s (FilterOp.removeTag i) f).1.activeFeedFilterIds
        = s.activeFeedFilterIds := by
      simp [applyFilterOp, handleRemoveTagFilter, fetch_feed, removeActiveTagFilter,
        setCurrentPage_one]
    have hkw : (applyFilterOp s (FilterOp.removeTag i) f).1.currentKeywordSearch
        = s.currentKeywordSearch := by
      simp [applyFilterOp, handleRemoveTagFilter, fetch_kw, removeActiveTagFilter,
        setCurrentPage_one]
    have htag : (applyFilterOp s (FilterOp.removeTag i) f).1.activeTagFilterIds
        = s.activeTagFilterIds.filter (fun t => t.id != i) := by
      simp [applyFilterOp, handleRemoveTagFilter, fetch_tag, removeActiveTagFilter,
        setCurrentPage_one]
    refine ⟨?_, trivial⟩
    simp only [atMostOneFilter, feedFilterActive, tagFilterActive, keywordFilterActive,
      hfeed, hkw, htag] at h ⊢
    cases hq : (s.activeTagFilterIds.filter (fun t => t.id != i)).isEmpty with
    | true => simp_all
    | false =>
      have hl : s.activeTagFilterIds.isEmpty = false := filterActive_mono hq
      simp_all
  | feedClick i =>
    have htag : (applyFilterOp s (FilterOp.feedClick i) f).1.activeTagFilterIds = [] := by
      simp [applyFilterOp, handleFeedFilterClick, fetch_tag, setActiveTagFilterIds,
        setCurrentKeywordSearch, setCurrentPage_one]
    have hkw : (applyFilterOp s (FilterOp.feedClick i) f).1.currentKeywordSearch = none := by
      simp [applyFilterOp, handleFeedFilterClick, fetch_kw, setActiveTagFilterIds,
        setCurrentKeywordSearch, setCurrentPage_one]
    constructor
    · simp [atMostOneFilter, feedFilterActive, tagFilterActive, keywordFilterActive,
        htag, hkw, jsTruthyStr]
    · exact ⟨htag, hkw⟩
  | allFeeds =>
    by_cases hno : (s.activeFeedFilterIds.isEmpty && s.activeTagFilterIds.isEmpty
        && !jsTruthyStr s.currentKeywordSearch) = true
    · have hs : applyFilterOp s FilterOp.allFeeds f = (s, none) := by
        simp [applyFilterOp, handleAllFeedsClick, hno]
      rw [hs]
      exact ⟨h, trivial⟩
    · have hfeed : (applyFilterOp s FilterOp.allFeeds f).1.activeFeedFilterIds = [] := by
        simp [applyFilterOp, handleAllFeedsClick, hno, fetch_feed, setActiveFeedFilterIds,
          setCurrentPage_one]
      have htag : (applyFilterOp s FilterOp.allFeeds f).1.activeTagFilterIds
          = s.activeTagFilterIds := by
        simp [applyFilterOp, handleAllFeedsClick, hno, fetch_tag, setActiveFeedFilterIds,
          setCurrentPage_one]
      have hkw : (applyFilterOp s FilterOp.allFeeds f).1.currentKeywordSearch
          = s.currentKeywordSearch := by
        simp [applyFilterOp, handleAllFeedsClick, hno, fetch_kw, setActiveFeedFilterIds,
          setCurrentPage_one]
      refine ⟨?_, trivial⟩
      simp only [atMostOneFilter, feedFilterActive, tagFilterActive, keywordFilterActive,
        hfeed, htag, hkw] at h ⊢
      simp_all
  | keywordSearch q =>
    have hfeed : (applyFilterOp s (FilterOp.keywordSearch q) f).1.activeFeedFilterIds = [] := by
      simp [applyFilterOp, keywordSearchClick, fetch_feed, setActiveFeedFilterIds,
        setActiveTagFilterIds, setCurrentKeywordSearch, setCurrentPage_one]
    have htag : (applyFilterOp s (FilterOp.keywordSearch q) f).1.activeTagFilterIds = [] := by
      simp [applyFilterOp, keywordSearchClick, fetch_tag, setActiveFeedFilterIds,
        setActiveTagFilterIds, setCurrentKeywordSearch, setCurrentPage_one]
    constructor
    · simp [atMostOneFilter, feedFilterActive, tagFilterActive, keywordFilterActive,
        hfeed, htag]
    · exact ⟨hfeed, htag⟩

/-- Witness for C2 (amended): a concrete feed-filter click from the
initial state. -/
theorem C2_filter_exclusive_witness :
    atMostOneFilter
        (applyFilterOp initState (FilterOp.feedClick 5) (Except.ok ⟨[], 0, 0⟩)).1 = true
      ∧ clearsOthers (FilterOp.feedClick 5)
          (applyFilterOp initState (FilterOp.feedClick 5) (Except.ok ⟨[], 0, 0⟩)).1 :=
  C2_filter_exclusive initState (FilterOp.feedClick 5) (Except.ok ⟨[], 0, 0⟩) (by decide)

/-- Counterexample to C7 as stated: the empty string does not contain the
`{text}` placeholder, yet `saveAiPrompts` accepts it (JS falsiness skips
the check), saves, and makes the network call. -/
theorem C7_counterexample :
    jsIncludes "" placeholderText = false
      ∧ (saveAiPrompts initState "" "" "").outcome = SaveOutcome.saved
      ∧ (saveAiPrompts initState "" "" "").networkCall = true := by
  decide

/-- C7 (amended): a non-empty summary or tag prompt without the `{text}`
placeholder is rejected client-side with no state change and no network
call; when both prompts contain the placeholder (in particular any
non-empty validated prompt), the save goes through with a network call
and the trimmed prompts are stored, empty ones falling back to the
defaults.  An empty prompt string, lacking the placeholder, is
nevertheless accepted. -/
theorem C7_prompt_validation (s : AppState) (sp cp tp : String) :
    (sp ≠ "" → jsIncludes sp placeholderText = false →
        saveAiPrompts s sp cp tp = ⟨s, SaveOutcome.rejected, false⟩)
      ∧ ((sp = "" ∨ jsIncludes sp placeholderText = true) → tp ≠ "" →
          jsIncludes tp placeholderText = false →
          saveAiPrompts s sp cp tp = ⟨s, SaveOutcome.rejected, false⟩)
      ∧ (jsIncludes sp placeholderText = true → jsIncludes tp placeholderText = true →
          (saveAiPrompts s sp cp tp).outcome = SaveOutcome.saved
            ∧ (saveAiPrompts s sp cp tp).networkCall = true
            ∧ (saveAiPrompts s sp cp tp).state.currentSummaryPrompt
                = (if jsTrim sp == "" then s.defaultSummaryPrompt else jsTrim sp)
            ∧ (saveAiPrompts s sp cp tp).state.currentTagGenerationPrompt
                = (if jsTrim tp == "" then s.defaultTagGenerationPrompt else jsTrim tp)) := by
  refine ⟨?_, ?_, ?_⟩
  · intro h1 h2
    have hc1 : (sp != "" && !jsIncludes sp placeholderText) = true := by
      simp [bne_iff_ne, h1, h2]
    simp [saveAiPrompts, hc1]
  · intro hsp h1 h2
    have hc1 : (sp != "" && !jsIncludes sp placeholderText) = false := by
      rcases hsp with h | h <;> simp [h]
    have hc2 : (tp != "" && !jsIncludes tp placeholderText) = true := by
      simp [bne_iff_ne, h1, h2]
    simp [saveAiPrompts, hc1, hc2]
  · intro h1 h2
    have hc1 : (sp != "" && !jsIncludes sp placeholderText) = false := by simp [h1]
    have hc2 : (tp != "" && !jsIncludes tp placeholderText) = false := by simp [h2]
    have hr : saveAiPrompts s sp cp tp
        = ⟨setCurrentPrompts s
            (if jsTrim sp == "" then s.defaultSummaryPrompt else jsTrim sp)
            (if jsTrim cp == "" then s.defaultChatPrompt else jsTrim cp)
            (if jsTrim tp == "" then s.defaultTagGenerationPrompt else jsTrim tp),
          SaveOutcome.saved, true⟩ := by
      simp [saveAiPrompts, hc1, hc2]
    rw [hr]
    refine ⟨rfl, rfl, ?_, ?_⟩
    · by_cases hsp0 : jsTrim sp = "" <;> simp [setCurrentPrompts, hsp0]
    · by_cases htp0 : jsTrim tp = "" <;> simp [setCurrentPrompts, htp0]

/-- Witness for C7 (amended): a concrete valid save goes through with a
network call. -/
theorem C7_prompt_validation_witness :
    (saveAiPrompts initState "Sum {text}" "" "Tag {text}").outcome = SaveOutcome.saved
      ∧ (saveAiPrompts initState "Sum {text}" "" "Tag {text}").networkCall = true :=
  ⟨((C7_prompt_validation initState "Sum {text}" "" "Tag {text}").2.2
      (by decide) (by decide)).1,
   ((C7_prompt_validation initState "Sum {text}" "" "Tag {text}").2.2
      (by decide) (by decide)).2.1⟩

/-- C9: a chat submission with a non-empty (trimmed) question first grows
the transcript by the user turn and the optimistic placeholder turn; the
`chat_history` sent upstream is that transcript minus its two most recent
entries, i.e. exactly the prior transcript; and the final transcript
replaces the placeholder with the real answer (or its fallback) on
success, or with an `AI Error:` turn on failure. -/
theorem C9_chat_submit (s : AppState) (rawInput : String) (aid : Int)
    (outcome : Except String (Option String))
    (hart : s.currentArticleForChat = some aid) (hq : jsTrim rawInput ≠ "") :
    (handleModalArticleChatSubmit s rawInput outcome).2.optimisticHistory
        = some (s.currentChatHistory
            ++ [⟨"user", jsTrim rawInput⟩, ⟨"ai", thinkingText⟩])
      ∧ (handleModalArticleChatSubmit s rawInput outcome).2.sentHistory
        = some s.currentChatHistory
      ∧ (handleModalArticleChatSubmit s rawInput outcome).1.currentChatHistory
        = s.currentChatHistory
            ++ [⟨"user", jsTrim rawInput⟩,
                ⟨"ai", match outcome with
                       | Except.ok ans => jsOrStr ans noAnswerText
                       | Except.error m => aiErrorText m⟩] := by
  cases outcome with
  | ok ans =>
    simp [handleModalArticleChatSubmit, hart, hq, setCurrentChatHistory, List.take_left]
  | error m =>
    simp [handleModalArticleChatSubmit, hart, hq, setCurrentChatHistory, List.take_left]

/-- Witness for C9 at a concrete transcript and a successful round trip. -/
theorem C9_chat_submit_witness :
    (handleModalArticleChatSubmit
          { initState with
            currentArticleForChat := some 4
            currentChatHistory := [⟨"user", "old"⟩, ⟨"ai", "prev"⟩] }
          "Why?" (Except.ok (some "Because."))).2.optimisticHistory
        = some [⟨"user", "old"⟩, ⟨"ai", "prev"⟩, ⟨"user", "Why?"⟩, ⟨"ai", thinkingText⟩]
      ∧ (handleModalArticleChatSubmit
          { initState with
            currentArticleForChat := some 4
            currentChatHistory := [⟨"user", "old"⟩, ⟨"ai", "prev"⟩] }
          "Why?" (Except.ok (some "Because."))).2.sentHistory
        = some [⟨"user", "old"⟩, ⟨"ai", "prev"⟩]
      ∧ (handleModalArticleChatSubmit
          { initState with
            currentArticleForChat := some 4
            currentChatHistory := [⟨"user", "old"⟩, ⟨"ai", "prev"⟩] }
          "Why?" (Except.ok (some "Because."))).1.currentChatHistory
        = [⟨"user", "old"⟩, ⟨"ai", "prev"⟩, ⟨"user", "Why?"⟩, ⟨"ai", "Because."⟩] :=
  C9_chat_submit
    { initState with
      currentArticleForChat := some 4
      currentChatHistory := [⟨"user", "old"⟩, ⟨"ai", "prev"⟩] }
    "Why?" 4 (Except.ok (some "Because.")) rfl (by decide)

theorem applySetter_inv {s : AppState} (h : storeInv s) (c : SetterCall) :
    storeInv (applySetter s c) := by
  cases c with
  | articlesPerPage v =>
    cases v with
    | none => exact h
    | some n =>
      by_cases hn : (0:Int) < n <;>
        simp [applySetter, setArticlesPerPage, hn, storeInv] at h ⊢ <;> omega
  | minimumWordCount v =>
    cases v with
    | none => exact h
    | some n =>
      by_cases hn : (0:Int) ≤ n <;>
        simp [applySetter, setMinimumWordCount, hn, storeInv] at h ⊢ <;> omega
  | currentPage v =>
    cases v with
    | none => exact h
    | some n =>
      by_cases hn : (0:Int) < n <;>
        simp [applySetter, setCurrentPage, hn, storeInv] at h ⊢ <;> omega
  | totalPages v =>
    cases v with
    | none => exact h
    | some n =>
      by_cases hn : (0:Int) ≤ n <;>
        simp [applySetter, setTotalPages, hn, storeInv] at h ⊢ <;> omega
  | totalArticlesAvailable v =>
    cases v with
    | none => exact h
    | some n =>
      by_cases hn : (0:Int) ≤ n <;>
        simp [applySetter, setTotalArticlesAvailable, hn, storeInv] at h ⊢ <;> omega
  | globalRssFetchInterval v =>
    cases v with
    | none => exact h
    | some n =>
      by_cases hn : (5:Int) ≤ n <;>
        simp [applySetter, setGlobalRssFetchInterval, hn, storeInv] at h ⊢ <;> omega
  | isLoadingMore b => exact h
  | articleForChat a => exact h
  | chatHistory hist => exact h
  | currentPrompts a b c => exact h
  | feedFilterIds ids => exact h
  | tagFilterIds tags => exact h
  | addTagFilter t =>
    simp only [applySetter, addActiveTagFilter]
    split <;> exact h
  | removeTagFilter v =>
    cases v with
    | none => exact h
    | some n => exact h
  | keywordSearch k => exact h
  | lastKnownTimestamp t => exact h

theorem foldl_applySetter_inv (calls : List SetterCall) :
    ∀ s : AppState, storeInv s → storeInv (calls.foldl applySetter s) := by
  induction calls with
  | nil => intro s h; exact h
  | cons c cs ih => intro s h; exact ih (applySetter s c) (applySetter_inv h c)

/-- C10: starting from the initial store state, any sequence of
state-store setter calls with arbitrary arguments maintains the numeric
range invariant — `currentPage ≥ 1`, `articlesPerPage ≥ 1`,
`totalPages ≥ 0`, `totalArticlesAvailable ≥ 0`, `minimumWordCount ≥ 0`,
`globalRssFetchInterval ≥ 5` — because each setter rejects out-of-range
input by leaving its field unchanged. -/
theorem C10_store_invariant (calls : List SetterCall) :
    storeInv (calls.foldl applySetter initState) :=
  foldl_applySetter_inv calls initState (by decide)

end Fathom
